import Mathlib

/-!
Shallow embedding of the BlazeNet coordinator daemon's radio control plane
(`src/coordinatord/Sources`), covering the radio configuration state machine,
the command codec records, the TX queue drain, the beacon frame builder, the
RPC dispatch, the RPC server admission logic and the SPI transport reset.
Machine integers are modelled as `Nat` with explicit reductions modulo
`2 ^ w` where the C++ code truncates; commands sent over the transport are
gathered into explicit traces; C++ exceptions become `Option String` /
`Except` results carrying the state the object is left in.
-/

/-- Little-endian packing of a `uint16_t` field of a packed C struct into its
two wire bytes (all multibyte command fields are little endian). -/
def packLE16 (v : Nat) : List Nat :=
  [v % 256, v / 256 % 256]

/-- A command issued to the radio over the transport, with the payload bytes
it carries (`Transports::CommandId` plus the packed request records of
`Transports/Commands.h`). Read-style commands carry no request payload. -/
inductive RadioCmd
  | radioConfig (payload : List Nat)
  | getStatus
  | getCounters
  | beaconConfig (payload : List Nat)
  | transmitPacket (payload : List Nat)
deriving Repr, DecidableEq

/-- `Radio::ensureCmdSuccess` (Radio.cpp): issue `GetStatus` and throw
`command failed: name` when the `cmdSuccess` bit is clear. The returned
option is the raised exception message, `none` on success. The `GetStatus`
command itself is recorded by each caller's trace. -/
def ensureCmdSuccess (commandName : String) (cmdSuccess : Bool) : Option String :=
  if cmdSuccess then none else some ("command failed: " ++ commandName)

/-- The configuration-related fields of the `Radio` object (Radio.h):
`maxTxPower` and `currentTxPower` are `uint16_t`, `currentChannel` and
`currentShortAddress` are `uint16_t`, `isConfigDirty` is the dirty flag. -/
structure RadioCfgState where
  maxTxPower : Nat
  currentTxPower : Nat
  currentChannel : Nat
  currentShortAddress : Nat
  isConfigDirty : Bool
deriving Repr, DecidableEq

/-- The `Radio` configuration state right after line 62 of the constructor
(`this->maxTxPower = this->currentTxPower = info.radio.maxTxPower`), with the
field initialisers of Radio.h (`isConfigDirty{true}`, `currentChannel{0xffff}`,
`currentShortAddress{0}`). `maxTx` is the `uint8_t` value from the `GetInfo`
response. -/
def initialRadioState (maxTx : Nat) : RadioCfgState :=
  { maxTxPower := maxTx % 256
    currentTxPower := maxTx % 256
    currentChannel := 0xffff
    currentShortAddress := 0
    isConfigDirty := true }

/-- `Radio::setChannel` (Radio.h): store the new channel (a `uint16_t`
parameter) and set the dirty flag. -/
def setChannel (s : RadioCfgState) (newChannel : Nat) : RadioCfgState :=
  { s with currentChannel := newChannel % 65536, isConfigDirty := true }

/-- `Radio::setTxPower` (Radio.h): store the new power in deci-dBm (a
`uint16_t` parameter, so the argument is truncated to 16 bits) and set the
dirty flag. No clamping against `maxTxPower` is performed. -/
def setTxPower (s : RadioCfgState) (newPower : Nat) : RadioCfgState :=
  { s with currentTxPower := newPower % 65536, isConfigDirty := true }

/-- The packed `Transports::Request::RadioConfig` record: `channel`,
`txPower`, `myAddress`, each a little-endian `uint16_t`. -/
def encodeRadioConfig (channel txPower myAddress : Nat) : List Nat :=
  packLE16 channel ++ packLE16 txPower ++ packLE16 myAddress

/-- Result of a `Radio` member call: the state the object is left in, the
trace of commands sent to the transport, and the exception raised (if any). -/
structure RadioCallResult where
  state : RadioCfgState
  cmds : List RadioCmd
  raised : Option String
deriving Repr, DecidableEq

/-- `Radio::uploadConfig` (Radio.cpp lines 160-176): build the `RadioConfig`
record from the cached fields, send it, then `ensureCmdSuccess`; only after
the success check passes is `isConfigDirty` cleared. `statusCmdSuccess` is
the `cmdSuccess` bit of the `GetStatus` response the radio returns. -/
def uploadConfig (s : RadioCfgState) (statusCmdSuccess : Bool) : RadioCallResult :=
  let conf := encodeRadioConfig s.currentChannel s.currentTxPower s.currentShortAddress
  let cmds := [RadioCmd.radioConfig conf, RadioCmd.getStatus]
  match ensureCmdSuccess "RadioConfig" statusCmdSuccess with
  | some e => { state := s, cmds := cmds, raised := some e }
  | none => { state := { s with isConfigDirty := false }, cmds := cmds, raised := none }

/-- `Radio::reloadConfig` (Radio.cpp lines 116-152): apply the channel read
from confd via `setChannel`, the transmit power via `setTxPower` (`deciDbm`
is the already-computed `size_t` value `max(0., txPower * 10.)`), store the
short address from the config file (truncated into the `uint16_t` field),
and upload when requested. -/
def reloadConfig (s : RadioCfgState) (chVal deciDbm addrVal : Nat)
    (upload statusCmdSuccess : Bool) : RadioCallResult :=
  let s1 := setChannel s chVal
  let s2 := setTxPower s1 deciDbm
  let s3 := { s2 with currentShortAddress := addrVal % 65536 }
  if upload then uploadConfig s3 statusCmdSuccess
  else { state := s3, cmds := [], raised := none }

/-- A configuration-mutating operation on the `Radio`, with the external
inputs (confd values, radio status bits) it consumes. -/
inductive RadioOp
  | setChannelOp (n : Nat)
  | setTxPowerOp (p : Nat)
  | uploadConfigOp (statusCmdSuccess : Bool)
  | reloadConfigOp (chVal deciDbm addrVal : Nat) (upload statusCmdSuccess : Bool)
deriving Repr, DecidableEq

/-- Apply one operation to the radio configuration state (the state the
object holds afterwards, whether or not the call raised). -/
def applyOp (s : RadioCfgState) (op : RadioOp) : RadioCfgState :=
  match op with
  | .setChannelOp n => setChannel s n
  | .setTxPowerOp p => setTxPower s p
  | .uploadConfigOp ok => (uploadConfig s ok).state
  | .reloadConfigOp ch d a u ok => (reloadConfig s ch d a u ok).state

/-- Run a sequence of configuration operations from a starting state. -/
def runOps (s : RadioCfgState) (ops : List RadioOp) : RadioCfgState :=
  ops.foldl applyOp s

/-- An operation whose (16-bit truncated) transmit-power argument does not
exceed the given maximum; operations that do not touch the power are
unconditionally safe. -/
def txPowerSafeOp (maxTx : Nat) : RadioOp → Bool
  | .setTxPowerOp p => p % 65536 ≤ maxTx
  | .reloadConfigOp _ d _ _ _ => d % 65536 ≤ maxTx
  | _ => true

theorem applyOp_maxTxPower (s : RadioCfgState) (op : RadioOp) :
    (applyOp s op).maxTxPower = s.maxTxPower := by
  cases op with
  | setChannelOp n => simp [applyOp, setChannel]
  | setTxPowerOp p => simp [applyOp, setTxPower]
  | uploadConfigOp ok => cases ok <;> simp [applyOp, uploadConfig, ensureCmdSuccess]
  | reloadConfigOp ch d a u ok =>
    cases u <;> cases ok <;>
      simp [applyOp, reloadConfig, uploadConfig, ensureCmdSuccess, setChannel, setTxPower]

theorem applyOp_txPower_le (s : RadioCfgState) (op : RadioOp)
    (hs : s.currentTxPower ≤ s.maxTxPower)
    (hop : txPowerSafeOp s.maxTxPower op = true) :
    (applyOp s op).currentTxPower ≤ (applyOp s op).maxTxPower := by
  rw [applyOp_maxTxPower]
  cases op with
  | setChannelOp n => simpa [applyOp, setChannel] using hs
  | setTxPowerOp p =>
    simp only [txPowerSafeOp, decide_eq_true_eq] at hop
    simpa [applyOp, setTxPower] using hop
  | uploadConfigOp ok =>
    cases ok <;> simpa [applyOp, uploadConfig, ensureCmdSuccess] using hs
  | reloadConfigOp ch d a u ok =>
    simp only [txPowerSafeOp, decide_eq_true_eq] at hop
    cases u <;> cases ok <;>
      simpa [applyOp, reloadConfig, uploadConfig, ensureCmdSuccess, setChannel,
        setTxPower] using hop

theorem runOps_txPower_le (ops : List RadioOp) :
    ∀ s : RadioCfgState, s.currentTxPower ≤ s.maxTxPower →
      (∀ op ∈ ops, txPowerSafeOp s.maxTxPower op = true) →
      (runOps s ops).currentTxPower ≤ (runOps s ops).maxTxPower := by
  induction ops with
  | nil => intro s hs _; simpa [runOps] using hs
  | cons op rest ih =>
    intro s hs hops
    have hstep := applyOp_txPower_le s op hs (hops op (by simp))
    have hmax := applyOp_maxTxPower s op
    have := ih (applyOp s op) hstep (by
      intro o ho
      rw [hmax]
      exact hops o (by simp [ho]))
    simpa [runOps] using this

/-- C2 as stated is false: `setTxPower` stores its argument without clamping,
so a single `setTxPower 201` on a radio whose `GetInfo` reported a maximum of
200 deci-dBm leaves `currentTxPower = 201 > 200 = maxTxPower`. -/
theorem c2_counterexample :
    ¬ ((runOps (initialRadioState 200) [RadioOp.setTxPowerOp 201]).currentTxPower ≤
      (runOps (initialRadioState 200) [RadioOp.setTxPowerOp 201]).maxTxPower) := by
  decide

/-- C2 amended: construction establishes `currentTxPower = maxTxPower`, and
the invariant `currentTxPower ≤ maxTxPower` is preserved by every sequence of
operations in which each `setTxPower` / `reloadConfig` power argument
(truncated to 16 bits) is at most `maxTxPower`; the setters themselves never
clamp. -/
theorem c2_amended (maxTx : Nat) (ops : List RadioOp)
    (h : ∀ op ∈ ops, txPowerSafeOp (maxTx % 256) op = true) :
    (runOps (initialRadioState maxTx) ops).currentTxPower ≤
      (runOps (initialRadioState maxTx) ops).maxTxPower := by
  refine runOps_txPower_le ops (initialRadioState maxTx) (le_refl _) ?_
  simpa [initialRadioState] using h

theorem c2_amended_witness :
    (runOps (initialRadioState 200) [RadioOp.setTxPowerOp 150]).currentTxPower ≤
      (runOps (initialRadioState 200) [RadioOp.setTxPowerOp 150]).maxTxPower :=
  c2_amended 200 [RadioOp.setTxPowerOp 150] (by decide)

/-- C3: `uploadConfig` sends the `RadioConfig` record and then verifies the
last-command-success bit via `GetStatus`; when it returns without raising the
dirty flag is clear, and when it raises (`command failed: RadioConfig`) the
dirty flag keeps the value it had before the call. -/
theorem c3_uploadConfig_dirty (s : RadioCfgState) (ok : Bool) :
    (uploadConfig s ok).state.isConfigDirty = (if ok then false else s.isConfigDirty)
    ∧ (uploadConfig s ok).raised =
        (if ok then none else some "command failed: RadioConfig")
    ∧ (uploadConfig s ok).cmds =
        [RadioCmd.radioConfig
          (encodeRadioConfig s.currentChannel s.currentTxPower s.currentShortAddress),
          RadioCmd.getStatus] := by
  cases ok <;> simp [uploadConfig, ensureCmdSuccess]

/-- The cached configuration of scenario S1: channel 11, transmit power
10.0 dBm (100 deci-dBm), short address 0x1234. -/
def c4State : RadioCfgState :=
  { maxTxPower := 200
    currentTxPower := 100
    currentChannel := 11
    currentShortAddress := 0x1234
    isConfigDirty := true }

/-- C4 as stated is false: with channel 11 the first payload byte is the
little-endian low byte of 11, which is 0x0B, not 0x11; the claimed byte
sequence `11 00 64 00 34 12` is not what `uploadConfig` sends. -/
theorem c4_counterexample :
    (uploadConfig c4State true).cmds.head? ≠
      some (RadioCmd.radioConfig [0x11, 0x00, 0x64, 0x00, 0x34, 0x12]) := by
  decide

/-- C4 amended: with cached channel 11, transmit power 100 deci-dBm and
short address 0x1234, the `RadioConfig` payload produced by `uploadConfig`
is exactly `0B 00 64 00 34 12` (channel, txPower, myAddress, each
little-endian 16-bit, in that order). -/
theorem c4_amended :
    (uploadConfig c4State true).cmds.head? =
      some (RadioCmd.radioConfig [0x0B, 0x00, 0x64, 0x00, 0x34, 0x12]) := by
  decide

/-- The six 64-bit receive accumulators of `Radio::RxCounters` (Radio.h). -/
structure RxCounters where
  bufferDiscards : Nat
  allocDiscards : Nat
  queueDiscards : Nat
  fifoOverflows : Nat
  frameErrors : Nat
  goodFrames : Nat
deriving Repr, DecidableEq

/-- The six 64-bit transmit accumulators of `Radio::TxCounters` (Radio.h). -/
structure TxCounters where
  bufferDiscards : Nat
  allocDiscards : Nat
  queueDiscards : Nat
  fifoDrops : Nat
  ccaFails : Nat
  goodFrames : Nat
deriving Repr, DecidableEq

/-- `RxCounters::reset` (Radio.h): zero all six fields. -/
def RxCounters.resetAll (_ : RxCounters) : RxCounters :=
  { bufferDiscards := 0, allocDiscards := 0, queueDiscards := 0
    fifoOverflows := 0, frameErrors := 0, goodFrames := 0 }

/-- `TxCounters::reset` (Radio.h): zero all six fields. -/
def TxCounters.resetAll (_ : TxCounters) : TxCounters :=
  { bufferDiscards := 0, allocDiscards := 0, queueDiscards := 0
    fifoDrops := 0, ccaFails := 0, goodFrames := 0 }

/-- The per-queue block of the packed `GetCounters` response (all `uint32_t`). -/
structure QueueCounterBlock where
  packetsPending : Nat
  bufferSize : Nat
  bufferDiscards : Nat
  bufferAllocFails : Nat
  queueDiscards : Nat
deriving Repr, DecidableEq

/-- The transmit-radio block of the packed `GetCounters` response. -/
structure TxRadioCounterBlock where
  fifoDrops : Nat
  ccaFails : Nat
  goodFrames : Nat
deriving Repr, DecidableEq

/-- The receive-radio block of the packed `GetCounters` response. -/
structure RxRadioCounterBlock where
  fifoOverflows : Nat
  frameErrors : Nat
  goodFrames : Nat
deriving Repr, DecidableEq

/-- The packed `Transports::Response::GetCounters` record (Commands.h). -/
structure GetCountersResp where
  currentTicks : Nat
  txQueue : QueueCounterBlock
  txRadio : TxRadioCounterBlock
  rxQueue : QueueCounterBlock
  rxRadio : RxRadioCounterBlock
deriving Repr, DecidableEq

/-- 64-bit accumulator addition: the `uint_least64_t` fields wrap modulo
`2 ^ 64` (in practice far from overflow, but the machine semantics). -/
def addU64 (a b : Nat) : Nat :=
  (a + b) % (2 ^ 64)

/-- Result of a counter-related `Radio` call: the accumulators the object is
left with, the command trace, and the raised exception (if any). -/
structure CountersCallResult where
  rx : RxCounters
  tx : TxCounters
  cmds : List RadioCmd
  raised : Option String
deriving Repr, DecidableEq

/-- `Radio::queryCounters` (Radio.cpp lines 358-391): issue the `GetCounters`
read, verify via `ensureCmdSuccess` (raising with the accumulators untouched
on failure), then add every device 32-bit field into its 64-bit local
accumulator. -/
def queryCounters (rx : RxCounters) (tx : TxCounters) (resp : GetCountersResp)
    (statusCmdSuccess : Bool) : CountersCallResult :=
  let cmds := [RadioCmd.getCounters, RadioCmd.getStatus]
  match ensureCmdSuccess "GetCounters" statusCmdSuccess with
  | some e => { rx := rx, tx := tx, cmds := cmds, raised := some e }
  | none =>
    let tx := { tx with
      bufferDiscards := addU64 tx.bufferDiscards resp.txQueue.bufferDiscards
      allocDiscards := addU64 tx.allocDiscards resp.txQueue.bufferAllocFails
      queueDiscards := addU64 tx.queueDiscards resp.txQueue.queueDiscards
      fifoDrops := addU64 tx.fifoDrops resp.txRadio.fifoDrops
      ccaFails := addU64 tx.ccaFails resp.txRadio.ccaFails
      goodFrames := addU64 tx.goodFrames resp.txRadio.goodFrames }
    let rx := { rx with
      bufferDiscards := addU64 rx.bufferDiscards resp.rxQueue.bufferDiscards
      allocDiscards := addU64 rx.allocDiscards resp.rxQueue.bufferAllocFails
      queueDiscards := addU64 rx.queueDiscards resp.rxQueue.queueDiscards
      fifoOverflows := addU64 rx.fifoOverflows resp.rxRadio.fifoOverflows
      frameErrors := addU64 rx.frameErrors resp.rxRadio.frameErrors
      goodFrames := addU64 rx.goodFrames resp.rxRadio.goodFrames }
    { rx := rx, tx := tx, cmds := cmds, raised := none }

/-- `Radio::resetCounters` (Radio.cpp lines 291-301): when `remote` is set,
perform one `queryCounters` exchange (which also clears the device counters
and accumulates the returned values locally, raising on failure); then zero
both local accumulator blocks via their `reset` members. -/
def resetCounters (remote : Bool) (rx : RxCounters) (tx : TxCounters)
    (resp : GetCountersResp) (statusCmdSuccess : Bool) : CountersCallResult :=
  if remote then
    let q := queryCounters rx tx resp statusCmdSuccess
    match q.raised with
    | some e => { q with raised := some e }
    | none =>
      { rx := q.rx.resetAll, tx := q.tx.resetAll, cmds := q.cmds, raised := none }
  else
    { rx := rx.resetAll, tx := tx.resetAll, cmds := [], raised := none }

/-- C5: `resetCounters true` issues exactly one `GetCounters` command and,
whenever the exchange succeeds, returns with all twelve local accumulator
fields equal to zero, even though the query first added the device values
into the accumulators. -/
theorem c5_resetCounters (rx : RxCounters) (tx : TxCounters) (resp : GetCountersResp) :
    (resetCounters true rx tx resp true).raised = none
    ∧ (resetCounters true rx tx resp true).rx =
        { bufferDiscards := 0, allocDiscards := 0, queueDiscards := 0
          fifoOverflows := 0, frameErrors := 0, goodFrames := 0 }
    ∧ (resetCounters true rx tx resp true).tx =
        { bufferDiscards := 0, allocDiscards := 0, queueDiscards := 0
          fifoDrops := 0, ccaFails := 0, goodFrames := 0 }
    ∧ (resetCounters true rx tx resp true).cmds.count RadioCmd.getCounters = 1 := by
  refine ⟨?_, ?_, ?_, ?_⟩ <;>
    simp [resetCounters, queryCounters, ensureCmdSuccess, RxCounters.resetAll,
      TxCounters.resetAll, List.count]

/-- The packed `Transports::Request::BeaconConfig` record followed by the
beacon payload (Commands.h): bit 0 of the first byte is `updateConfig`,
bit 1 is `enabled`; then the 16-bit interval, then the payload bytes. The
`enabled` bit and the interval are written only under `if (updateConfig)`;
otherwise they stay at the zero the buffer was value-initialised to. -/
def encodeBeaconConfig (updateConfig enabled : Bool) (intervalMs : Nat)
    (payload : List Nat) : List Nat :=
  ((if updateConfig then 1 else 0) + (if updateConfig && enabled then 2 else 0)) ::
    packLE16 (if updateConfig then intervalMs % 65536 else 0) ++ payload

/-- Result of `Radio::setBeaconConfig`: the command trace and the raised
exception (if any). -/
structure BeaconCallResult where
  cmds : List RadioCmd
  raised : Option String
deriving Repr, DecidableEq

/-- `Radio::setBeaconConfig` private overload (Radio.cpp lines 245-279):
validate the interval (minimum `kMinBeaconInterval` = 1000 ms, maximum
`UINT16_MAX`) before anything is sent, then build the `BeaconConfig` request
and send it, verifying via `ensureCmdSuccess`. The interval parameter is the
signed `std::chrono::milliseconds` count. -/
def setBeaconConfigFull (enabled : Bool) (intervalMs : Int) (payload : List Nat)
    (updateConfig : Bool) (statusCmdSuccess : Bool) : BeaconCallResult :=
  if intervalMs < 1000 then
    { cmds := [], raised := some "interval too small (min 1000 msec)" }
  else if intervalMs > 65535 then
    { cmds := [], raised := some "interval too large (max 65535 msec)" }
  else
    let buf := encodeBeaconConfig updateConfig enabled intervalMs.toNat payload
    { cmds := [RadioCmd.beaconConfig buf, RadioCmd.getStatus]
      raised := ensureCmdSuccess "BeaconConfig" statusCmdSuccess }

/-- The public payload-only `Radio::setBeaconConfig` overload (Radio.h lines
286-289): forwards `enabled = false`, `interval = 0 ms`,
`updateConfig = false`. -/
def setBeaconConfigPayloadOnly (payload : List Nat)
    (statusCmdSuccess : Bool) : BeaconCallResult :=
  setBeaconConfigFull false 0 payload false statusCmdSuccess

/-- C10: the payload-only `setBeaconConfig` overload always raises the
interval-too-small `InvalidArgument` (its forwarded interval 0 fails the
`>= 1000 ms` validation, which runs before the command is built), and no
`BeaconConfig` command is ever sent to the radio. -/
theorem c10_payloadOnly_always_throws (payload : List Nat) (statusCmdSuccess : Bool) :
    setBeaconConfigPayloadOnly payload statusCmdSuccess =
      { cmds := [], raised := some "interval too small (min 1000 msec)" } := by
  rfl

/-- Modelled from the spec: the shared protocol types of the external header
`BlazeNet/Types.h` are not part of this repository; per the spec the MAC
header is a flags byte, a sequence byte and two 16-bit addresses, the beacon
header is a version byte, a flags byte (bit 0 = pairing enable), the 16-byte
network identifier and `reservedPad` bytes of reserved padding, and the PHY
header is the single length byte. `Beaconator::updateBeaconBuffer`
(Beaconator.cpp lines 84-132) zero-fills a buffer of the combined size and
overlays these fields; this is the buffer as it stands just before the final
length check. -/
def assembleBeaconBuffer (reservedPad : Nat) (macFlags protoVersion : Nat)
    (shortAddr : Nat) (pairingEnabled : Bool) (networkId : List Nat) : List Nat :=
  let macHdr := [macFlags, 0] ++ packLE16 (shortAddr % 65536) ++ packLE16 0xffff
  let beaconHdr := [protoVersion, if pairingEnabled then 1 else 0] ++
    (networkId.take 16 ++ List.replicate (16 - networkId.length) 0) ++
    List.replicate reservedPad 0
  0 :: (macHdr ++ beaconHdr)

/-- `Beaconator::updateBeaconBuffer` (Beaconator.cpp lines 84-132): assemble
the PHY + MAC + beacon buffer, raise `beacon too large` when its size
exceeds 0xff, and otherwise stamp byte 0 with the PHY length
(`buffer.size() - 1`). -/
def updateBeaconBuffer (reservedPad : Nat) (macFlags protoVersion : Nat)
    (shortAddr : Nat) (pairingEnabled : Bool) (networkId : List Nat) :
    Except String (List Nat) :=
  let buffer := assembleBeaconBuffer reservedPad macFlags protoVersion shortAddr
    pairingEnabled networkId
  if buffer.length > 0xff then
    .error ("beacon too large: " ++ toString buffer.length)
  else
    .ok (buffer.set 0 (buffer.length - 1))

/-- C6: every beacon frame the builder produces satisfies
`bytes[0] = len(bytes) - 1` and `len(bytes) <= 256`; when the assembled
frame would exceed 255 bytes the builder raises instead of producing a
frame. -/
theorem c6_beacon_frame_wf (reservedPad macFlags protoVersion shortAddr : Nat)
    (pairingEnabled : Bool) (networkId : List Nat) :
    match updateBeaconBuffer reservedPad macFlags protoVersion shortAddr
        pairingEnabled networkId with
    | .ok bytes => bytes.head? = some (bytes.length - 1) ∧ bytes.length ≤ 256
    | .error _ =>
        255 < (assembleBeaconBuffer reservedPad macFlags protoVersion shortAddr
          pairingEnabled networkId).length := by
  unfold updateBeaconBuffer
  split
  case h_1 bytes heq =>
    by_cases hlen : (assembleBeaconBuffer reservedPad macFlags protoVersion shortAddr
        pairingEnabled networkId).length > 0xff
    · rw [if_pos hlen] at heq
      cases heq
    · rw [if_neg hlen] at heq
      cases heq
      constructor
      · simp [assembleBeaconBuffer, List.length_set]
      · rw [List.length_set]
        omega
  case h_2 err heq =>
    by_cases hlen : (assembleBeaconBuffer reservedPad macFlags protoVersion shortAddr
        pairingEnabled networkId).length > 0xff
    · simpa using hlen
    · rw [if_neg hlen] at heq
      cases heq

/-- `Radio::TxPacket` (Radio.h): priority level (0 = Background, 1 = Normal,
2 = RealTime, 3 = NetworkControl) and the payload bytes including PHY and
MAC headers. -/
structure TxPacket where
  priority : Nat
  payload : List Nat
deriving Repr, DecidableEq

/-- The four transmit FIFOs of `Radio::txQueues`, indexed by priority. -/
structure TxQueues where
  background : List TxPacket
  normal : List TxPacket
  realTime : List TxPacket
  networkControl : List TxPacket
deriving Repr, DecidableEq

/-- `txQueues.at(p)`: the FIFO for priority level `p`. -/
def getQueue (qs : TxQueues) : Nat → List TxPacket
  | 0 => qs.background
  | 1 => qs.normal
  | 2 => qs.realTime
  | _ => qs.networkControl

/-- Replace the FIFO for priority level `p`. -/
def setQueue (qs : TxQueues) : Nat → List TxPacket → TxQueues
  | 0, l => { qs with background := l }
  | 1, l => { qs with normal := l }
  | 2, l => { qs with realTime := l }
  | _, l => { qs with networkControl := l }

/-- One `TransmitPacket` submission attempted during a drain: the priority
level whose queue head was submitted, the packet, and whether the
`transmitPacket` call succeeded. -/
structure TxAttempt where
  priority : Nat
  packet : TxPacket
  ok : Bool
deriving Repr, DecidableEq

/-- Result of `Radio::drainTxQueue`: the queues afterwards, the returned
"anything was sent" flag, and the ordered trace of submissions attempted. -/
structure DrainResult where
  queues : TxQueues
  sent : Bool
  attempts : List TxAttempt
deriving Repr, DecidableEq

/-- The loop body of `Radio::drainTxQueue` (Radio.cpp lines 588-617) over the
remaining list of priority indices: skip empty queues, submit the head of a
non-empty queue (the oracle `send` gives the outcome of the k-th submission
of this drain), pop it only on success, and on a failed submission return at
once with the queue untouched. -/
def drainLoop (send : Nat → Bool) :
    List Nat → TxQueues → Bool → Nat → List TxAttempt → DrainResult
  | [], qs, sent, _, log => ⟨qs, sent, log⟩
  | p :: rest, qs, sent, k, log =>
    match getQueue qs p with
    | [] => drainLoop send rest qs sent k log
    | pkt :: tl =>
      if send k then
        drainLoop send rest (setQueue qs p tl) true (k + 1) (log ++ [⟨p, pkt, true⟩])
      else
        ⟨qs, sent, log ++ [⟨p, pkt, false⟩]⟩

/-- `Radio::drainTxQueue` (Radio.cpp lines 588-617): the loop visits
`txQueues.at(3 - i)` for `i = 0, 1, 2, 3`, i.e. the priority indices in the
order 3, 2, 1, 0, starting with `sent = false` and an empty trace. -/
def drainTxQueue (send : Nat → Bool) (qs : TxQueues) : DrainResult :=
  drainLoop send [3, 2, 1, 0] qs false 0 []

/-- The heads of the non-empty queues among the given priority indices, in
the given order, paired with their priority. -/
def queueHeads (order : List Nat) (qs : TxQueues) : List (Nat × TxPacket) :=
  order.filterMap fun p => (getQueue qs p).head?.map fun pkt => (p, pkt)

/-- Reference behaviour from the claim: submit the listed packets in order;
every successful submission is recorded and the next is attempted; the first
failed submission is recorded and nothing after it is attempted. -/
def submitUntilFailure (send : Nat → Bool) : Nat → List (Nat × TxPacket) → List TxAttempt
  | _, [] => []
  | k, (p, pkt) :: rest =>
    if send k then ⟨p, pkt, true⟩ :: submitUntilFailure send (k + 1) rest
    else [⟨p, pkt, false⟩]

/-- Reference behaviour from the claim: pop the head of the queue of every
successfully submitted packet; queues of failed submissions keep their head. -/
def popSuccesses (qs : TxQueues) (log : List TxAttempt) : TxQueues :=
  log.foldl
    (fun acc a => if a.ok then setQueue acc a.priority (getQueue acc a.priority).tail else acc)
    qs

/-- The claim's description of a single drain invocation, assembled
compositionally: attempt the head of each non-empty queue in strictly
descending priority order, stopping at the first failure; pop exactly the
successful submissions; report whether any submission succeeded. -/
def drainTxQueueSpec (send : Nat → Bool) (qs : TxQueues) : DrainResult :=
  let log := submitUntilFailure send 0 (queueHeads [3, 2, 1, 0] qs)
  ⟨popSuccesses qs log, log.any (fun a => a.ok), log⟩

theorem getQueue_setQueue_ne (qs : TxQueues) (p q : Nat) (l : List TxPacket)
    (hp : p < 4) (hq : q < 4) (hne : q ≠ p) :
    getQueue (setQueue qs p l) q = getQueue qs q := by
  interval_cases p <;> interval_cases q <;> simp_all [getQueue, setQueue]

theorem queueHeads_setQueue (order : List Nat) (qs : TxQueues) (p : Nat)
    (l : List TxPacket) (hp : p < 4) (hnotin : p ∉ order)
    (hb : ∀ q ∈ order, q < 4) :
    queueHeads order (setQueue qs p l) = queueHeads order qs := by
  induction order with
  | nil => rfl
  | cons q rest ih =>
    have hq : q < 4 := hb q (by simp)
    have hqp : q ≠ p := by
      intro h
      exact hnotin (by simp [h])
    simp only [queueHeads, List.filterMap_cons] at ih ⊢
    rw [getQueue_setQueue_ne qs p q l hp hq hqp,
      ih (by intro h; exact hnotin (by simp [h])) (fun r hr => hb r (by simp [hr]))]

theorem drainLoop_spec (send : Nat → Bool) (order : List Nat) :
    ∀ (qs : TxQueues) (sent : Bool) (k : Nat) (log : List TxAttempt),
      order.Nodup → (∀ p ∈ order, p < 4) →
      drainLoop send order qs sent k log =
        ⟨popSuccesses qs (submitUntilFailure send k (queueHeads order qs)),
          sent || (submitUntilFailure send k (queueHeads order qs)).any (fun a => a.ok),
          log ++ submitUntilFailure send k (queueHeads order qs)⟩ := by
  induction order with
  | nil =>
    intro qs sent k log _ _
    simp [drainLoop, queueHeads, submitUntilFailure, popSuccesses]
  | cons p rest ih =>
    intro qs sent k log hnd hb
    obtain ⟨hp_notin, hnd'⟩ := List.nodup_cons.mp hnd
    have hp4 : p < 4 := hb p (by simp)
    have hb' : ∀ q ∈ rest, q < 4 := fun q hq => hb q (by simp [hq])
    cases hq : getQueue qs p with
    | nil =>
      rw [show drainLoop send (p :: rest) qs sent k log =
          drainLoop send rest qs sent k log by simp [drainLoop, hq]]
      rw [ih qs sent k log hnd' hb']
      simp [queueHeads, List.filterMap_cons, hq]
    | cons pkt tl =>
      have hheads : queueHeads (p :: rest) qs = (p, pkt) :: queueHeads rest qs := by
        simp [queueHeads, List.filterMap_cons, hq]
      cases hsk : send k with
      | true =>
        rw [show drainLoop send (p :: rest) qs sent k log =
            drainLoop send rest (setQueue qs p tl) true (k + 1)
              (log ++ [⟨p, pkt, true⟩]) by simp [drainLoop, hq, hsk]]
        rw [ih (setQueue qs p tl) true (k + 1) _ hnd' hb']
        rw [queueHeads_setQueue rest qs p tl hp4 hp_notin hb']
        rw [hheads]
        simp only [submitUntilFailure, hsk, if_true]
        simp [DrainResult.mk.injEq, popSuccesses, hq, List.append_assoc]
      | false =>
        rw [show drainLoop send (p :: rest) qs sent k log =
            ⟨qs, sent, log ++ [⟨p, pkt, false⟩]⟩ by simp [drainLoop, hq, hsk]]
        rw [hheads]
        simp [submitUntilFailure, hsk, popSuccesses]

/-- C1: a single `drainTxQueue` invocation behaves exactly as the claim
describes: it attempts the head packet of each non-empty queue in strictly
descending priority order (NetworkControl, RealTime, Normal, Background),
pops a packet only when its submission succeeds, stops at the first failed
submission (whose packet stays at the head of its queue, with no
lower-priority queue attempted), and returns whether any packet was sent. -/
theorem c1_drainTxQueue_correct (send : Nat → Bool) (qs : TxQueues) :
    drainTxQueue send qs = drainTxQueueSpec send qs := by
  have h := drainLoop_spec send [3, 2, 1, 0] qs false 0 [] (by decide)
    (by intro p hp; fin_cases hp <;> decide)
  simpa [drainTxQueue, drainTxQueueSpec] using h

/-- Read a little-endian `uint16_t` out of a byte buffer at offset `i`. -/
def leU16 (bytes : List Nat) (i : Nat) : Nat :=
  bytes.getD i 0 + 256 * bytes.getD (i + 1) 0

/-- The failure modes of `ClientConnection::handleRead`
(Rpc/ClientConnection.cpp); every one of them is thrown, which makes the
read callback abort (close) the connection. -/
inductive HandleError
  | insufficientRead (got : Nat)
  | invalidVersion (v : Nat)
  | invalidHeaderSize (len avail : Nat)
  | cborLoadFailed
  | unknownEndpoint (ep : Nat)
  | endpointFailed (msg : String)
deriving Repr, DecidableEq

/-- `ClientConnection::handleRead` (Rpc/ClientConnection.cpp lines 111-179):
validate the 6-byte header (version `0x0100`, `length` within
`[sizeof(header), buffered bytes]`), CBOR-decode the payload when non-empty
(`cborLoad` stands for the external `cbor_load`), then dispatch on the
endpoint byte. The dispatch switch handles only `RequestEndpoint::Config`
(0x01); every other endpoint value, including `RequestEndpoint::Status`
(0x02), falls to the default case and throws `unknown rpc endpoint`. -/
def handleRead {α : Type} (cborLoad : List Nat → Except String α)
    (configHandle : Option α → Except String Unit) (rx : List Nat) :
    Except HandleError Unit :=
  if rx.length < 6 then .error (.insufficientRead rx.length)
  else if leU16 rx 0 ≠ 0x0100 then .error (.invalidVersion (leU16 rx 0))
  else if leU16 rx 2 < 6 ∨ rx.length < leU16 rx 2 then
    .error (.invalidHeaderSize (leU16 rx 2) rx.length)
  else
    let payload := (rx.drop 6).take (leU16 rx 2 - 6)
    let item : Except HandleError (Option α) :=
      if payload.isEmpty then .ok none
      else
        match cborLoad payload with
        | .ok it => .ok (some it)
        | .error _ => .error .cborLoadFailed
    match item with
    | .error e => .error e
    | .ok it =>
      match rx.getD 4 0 with
      | 1 =>
        match configHandle it with
        | .ok _ => .ok ()
        | .error m => .error (.endpointFailed m)
      | ep => .error (.unknownEndpoint ep)

/-- The CBOR encoding of the map with key `get` mapping to the text string
`radio.counters`. -/
def cborGetRadioCounters : List Nat :=
  [0xA1, 0x63, 0x67, 0x65, 0x74,
    0x6E, 0x72, 0x61, 0x64, 0x69, 0x6F, 0x2E, 0x63, 0x6F, 0x75, 0x6E, 0x74, 0x65,
    0x72, 0x73]

/-- A well-formed RPC frame for the Status endpoint: version `0x0100`,
length 26 (header plus 20 payload bytes), endpoint `0x02`, tag `0x42`,
payload `{"get": "radio.counters"}`. -/
def statusCountersFrame : List Nat :=
  [0x00, 0x01, 0x1A, 0x00, 0x02, 0x42] ++ cborGetRadioCounters

/-- C7 describes the intended behaviour, but the dispatch in
`ClientConnection::handleRead` has no case for endpoint `0x02`: on the
well-formed Status request frame (for any CBOR decoder that accepts the
payload) it throws `unknown rpc endpoint`, which closes the connection,
even though `Status::Handle` in Rpc/Endpoints/Status.cpp implements exactly
the documented reply and `Rpc/Types.h` declares endpoint `0x02` = Status. -/
theorem c7_status_endpoint_not_dispatched {α : Type}
    (cborLoad : List Nat → Except String α)
    (configHandle : Option α → Except String Unit) (item : α)
    (h : cborLoad cborGetRadioCounters = .ok item) :
    handleRead cborLoad configHandle statusCountersFrame =
      .error (.unknownEndpoint 0x02) := by
  have hp : (statusCountersFrame.drop 6).take (leU16 statusCountersFrame 2 - 6) =
      cborGetRadioCounters := by decide
  simp only [handleRead]
  rw [hp, h]
  rfl

theorem c7_status_endpoint_not_dispatched_witness :
    handleRead (fun _ => Except.ok ()) (fun _ => Except.ok ()) statusCountersFrame =
      Except.error (HandleError.unknownEndpoint 0x02) :=
  c7_status_endpoint_not_dispatched (fun _ => Except.ok ()) (fun _ => Except.ok ()) () rfl

/-- `Server::kMaxClients` (Rpc/Server.h). -/
def kMaxClients : Nat := 100

/-- `Server::kClientGcMaxOffcycle` (Rpc/Server.h). -/
def kClientGcMaxOffcycle : Nat := 10

/-- The admission-relevant state of `Rpc::Server`: the live client list
(each entry is its dead flag), the off-cycle GC counter and the rejection
counter. -/
structure ServerState where
  clients : List Bool
  numOffCycleGc : Nat
  numClientsRejected : Nat
deriving Repr, DecidableEq

/-- `Server::garbageCollectClients` (Rpc/Server.cpp lines 237-250): erase
every client whose dead flag is set. -/
def garbageCollectClients (s : ServerState) : ServerState :=
  { s with clients := s.clients.filter (fun dead => !dead) }

/-- Outcome of `Server::acceptClient`: the server state afterwards, whether
the accepted fd was admitted (wrapped in a `ClientConnection` and stored) or
closed, and how many off-cycle garbage collections ran. -/
structure AcceptResult where
  state : ServerState
  admitted : Bool
  gcRuns : Nat
deriving Repr, DecidableEq

/-- `Server::acceptClient` (Rpc/Server.cpp lines 194-230): after accepting
the fd, if `clients.size() > kMaxClients` then bump the off-cycle GC
counter; while it is still under `kClientGcMaxOffcycle`, run one garbage
collection and admit if the list dropped strictly below `kMaxClients`;
otherwise close the fd, count a rejection and throw. When the size check is
not triggered, the client is admitted (a live entry is appended). -/
def acceptClient (s : ServerState) : AcceptResult :=
  if s.clients.length > kMaxClients then
    let s1 := { s with numOffCycleGc := s.numOffCycleGc + 1 }
    if s1.numOffCycleGc < kClientGcMaxOffcycle then
      let s2 := garbageCollectClients s1
      if s2.clients.length < kMaxClients then
        { state := { s2 with clients := s2.clients ++ [false] }, admitted := true, gcRuns := 1 }
      else
        { state := { s2 with numClientsRejected := s2.numClientsRejected + 1 },
          admitted := false, gcRuns := 1 }
    else
      { state := { s1 with numClientsRejected := s1.numClientsRejected + 1 },
        admitted := false, gcRuns := 0 }
  else
    { state := { s with clients := s.clients ++ [false] }, admitted := true, gcRuns := 0 }

/-- C8 as stated is false at its own concrete scenario: with exactly 100
live clients the capacity test `clients.size() > kMaxClients` is
`100 > 100`, which does not hold, so the 101st connection is admitted
without any off-cycle garbage collection and without touching the rejection
counter. -/
theorem c8_counterexample :
    (acceptClient ⟨List.replicate 100 false, 0, 0⟩).admitted = true
    ∧ (acceptClient ⟨List.replicate 100 false, 0, 0⟩).gcRuns = 0
    ∧ (acceptClient ⟨List.replicate 100 false, 0, 0⟩).state.numClientsRejected = 0
    ∧ (acceptClient ⟨List.replicate 100 false, 0, 0⟩).state.clients.length = 101 := by
  decide

/-- C8 amended: a connection is admitted outright whenever the live list has
at most 100 entries (so up to 101 clients can be live); the off-cycle GC /
rejection path runs only from 101 live clients onwards, so it is the 102nd
connection that, with 101 live clients none of them dead, triggers exactly
one off-cycle GC, is refused, and increments the rejection counter by 1. -/
theorem c8_amended (s : ServerState) :
    (s.clients.length ≤ kMaxClients →
      (acceptClient s).admitted = true
      ∧ (acceptClient s).state.clients = s.clients ++ [false]
      ∧ (acceptClient s).gcRuns = 0
      ∧ (acceptClient s).state.numClientsRejected = s.numClientsRejected)
    ∧ ((acceptClient ⟨List.replicate 101 false, 0, 0⟩).admitted = false
      ∧ (acceptClient ⟨List.replicate 101 false, 0, 0⟩).gcRuns = 1
      ∧ (acceptClient ⟨List.replicate 101 false, 0, 0⟩).state.numClientsRejected = 1) := by
  constructor
  · intro hle
    have hnot : ¬ (s.clients.length > kMaxClients) := by omega
    simp [acceptClient, hnot]
  · decide

theorem c8_amended_witness :
    (acceptClient ⟨[], 0, 0⟩).admitted = true
    ∧ (acceptClient ⟨[], 0, 0⟩).state.clients = [] ++ [false]
    ∧ (acceptClient ⟨[], 0, 0⟩).gcRuns = 0
    ∧ (acceptClient ⟨[], 0, 0⟩).state.numClientsRejected = 0 :=
  (c8_amended ⟨[], 0, 0⟩).1 (by decide)

/-- An observable step of `Spidev::reset`: driving the reset GPIO line
(asserted or released) or sleeping for the given number of microseconds. -/
inductive GpioAction
  | setLine (asserted : Bool)
  | sleepUs (us : Nat)
deriving Repr, DecidableEq

/-- `Spidev::reset` (Transports/Spidev.cpp lines 240-269): no-op without a
reset line; otherwise assert the line, `usleep(20 * 1000)`, release the
line, then `usleep(250 * 1000)` for the controller to boot. A failing
`gpiod_line_set_value` raises (`std::system_error`, the IoError of the
spec); the returned trace holds the actions completed before any failure. -/
def spidevReset (hasResetLine : Bool) (assertOk deassertOk : Bool) :
    List GpioAction × Option String :=
  if !hasResetLine then ([], none)
  else if !assertOk then ([], some "assert reset line")
  else if !deassertOk then
    ([GpioAction.setLine true, GpioAction.sleepUs 20000], some "deassert reset line")
  else
    ([GpioAction.setLine true, GpioAction.sleepUs 20000, GpioAction.setLine false,
      GpioAction.sleepUs 250000], none)

/-- C9 as stated is false: the successful reset sequence ends with
`usleep(250 * 1000)`, a 250 ms boot delay, not the claimed 750 ms. -/
theorem c9_counterexample :
    spidevReset true true true ≠
      ([GpioAction.setLine true, GpioAction.sleepUs 20000, GpioAction.setLine false,
        GpioAction.sleepUs 750000], none) := by
  decide

/-- C9 amended: with a reset line present the operation asserts the line,
waits 20 ms, releases it, then sleeps 250 ms before returning; without a
reset line it is a no-op; a GPIO failure raises IoError (trace truncated at
the failing call). -/
theorem c9_amended (assertOk deassertOk : Bool) :
    spidevReset false assertOk deassertOk = ([], none)
    ∧ spidevReset true true true =
        ([GpioAction.setLine true, GpioAction.sleepUs 20000, GpioAction.setLine false,
          GpioAction.sleepUs 250000], none)
    ∧ spidevReset true false deassertOk = ([], some "assert reset line")
    ∧ spidevReset true true false =
        ([GpioAction.setLine true, GpioAction.sleepUs 20000],
          some "deassert reset line") := by
  cases assertOk <;> cases deassertOk <;> decide
